import Mathlib

/-!
Shallow embedding of the pyRevit extensible-storage schema/entity layer
(repository `extensible-storage-pyrevit`): `field.py`, `schema.py`,
`schema_builder.py`, `field_builder.py` (package `extensible_storage`) and
`entity.py`, `__init__.py` (package `extensible_storage.lib`).

Host (Revit API) objects are modelled as explicit data: the host schema
registry is a list of schema handles, an element is a association list from
schema GUID to entity handle, and host calls (`Get`, `Set`, `Clear`,
`GetEntity`, `SetEntity`, `DeleteEntity`, `Schema.Lookup`) are functions on
that state. Python exceptions are modelled with `Except`; a raised exception
propagates as an `Except.error`. GUIDs, unit ids and vendor ids are modelled
as strings; scalar payloads are abstracted to `Nat` (their identity is
irrelevant to the properties proved here).
-/

/-- Host value-type tokens, the values of `ALLOWED_VALUE_TYPES` in `field.py`
(`System.Int32`, ..., `DB.ElementId`, `DB.XYZ`, `DB.UV`, `ES.Entity`). -/
inductive TypeToken
  | int32
  | int16
  | byte
  | double
  | single
  | boolean
  | string
  | guid
  | elementId
  | xyz
  | uv
  | entity
deriving DecidableEq, Repr

/-- The closed container-kind enum `ES.ContainerType` (Simple, Array, Map). -/
inductive ContainerType
  | simple
  | array
  | map
deriving DecidableEq, Repr

/-- A .NET runtime type as it appears in the source's type comparisons: a
plain value-type token, an `IList[v]`, or an `IDictionary[k, v]`
(`determine_field_type` in `field.py` produces exactly these shapes). -/
inductive NetType
  | plain (t : TypeToken)
  | ilist (t : TypeToken)
  | idict (k v : TypeToken)
deriving DecidableEq, Repr

/-- A `ForgeTypeId` used as a field spec: `DB.SpecTypeId.Number` or some other
spec id. -/
inductive SpecId
  | number
  | custom (s : String)
deriving DecidableEq, Repr

/-- Inputs accepted by `resolve_type` in `field.py`: an already-resolved host
type object, one of the native Python primitive types `int`, `float`, `bool`,
`str` (checked by identity in the source), or a snake_case string name.
The native primitives are kept as distinct constructors because the source
tests them with `is` before consulting the string vocabulary. -/
inductive TypeInput
  | tok (t : TypeToken)
  | pyInt
  | pyFloat
  | pyBool
  | pyStr
  | name (s : String)
deriving DecidableEq, Repr

/-- Python exceptions raised by the embedded code: `ValueError`,
`StopIteration` (from `next` on an empty iterator), `AttributeError` on
`None` (dereferencing the result of a failed lookup), `TypeError`, and
exceptions thrown by the host API. -/
inductive Err
  | valueError (msg : String)
  | stopIteration
  | noneAttribute (attr : String)
  | typeError (msg : String)
  | hostError (msg : String)
deriving DecidableEq, Repr

deriving instance DecidableEq for Except

/-- The `ALLOWED_VALUE_TYPES` dictionary of `field.py` (name to host type). -/
def ALLOWED_VALUE_TYPES : List (String × TypeToken) :=
  [("int32", .int32), ("int16", .int16), ("byte", .byte), ("double", .double),
   ("single", .single), ("boolean", .boolean), ("string", .string),
   ("guid", .guid), ("element_id", .elementId), ("xyz", .xyz), ("uv", .uv),
   ("entity", .entity)]

/-- The `ALLOWED_KEY_TYPES` dictionary of `field.py`: the value set without
`double`, `single`, `xyz`, `uv` and `entity`. -/
def ALLOWED_KEY_TYPES : List (String × TypeToken) :=
  [("int32", .int32), ("int16", .int16), ("byte", .byte),
   ("boolean", .boolean), ("string", .string), ("guid", .guid),
   ("element_id", .elementId)]

/-- Embeds `resolve_type(data_type, allowed_types)` from `field.py`. The
source checks, in order: membership of `allowed_types.values()`; identity
with the native primitives `int`, `float`, `bool`, `str` (returning `Int32`,
`Double`, `Boolean`, `String` unconditionally, without consulting
`allowed_types`); then string lookup in `allowed_types`; otherwise it raises
`ValueError`. -/
def resolve_type (data_type : TypeInput) (allowed_types : List (String × TypeToken)) :
    Except Err TypeToken :=
  match data_type with
  | .tok t =>
      if t ∈ allowed_types.map Prod.snd then .ok t
      else .error (.valueError "Invalid data type")
  | .pyInt => .ok .int32
  | .pyFloat => .ok .double
  | .pyBool => .ok .boolean
  | .pyStr => .ok .string
  | .name s =>
      match allowed_types.find? (fun p => p.1 == s) with
      | some p => .ok p.2
      | none => .error (.valueError "Invalid data type")

/-- The attributes stored on a `FieldDescriptor` by its constructor in
`field.py`. `value_type` holds the resolved token; `key_type` holds a
resolved token (as `TypeInput.tok`) for Map fields but the raw, unvalidated
constructor argument for every other container kind, exactly as in the
source (`self.key_type = key_type` outside the Map branch). -/
structure FieldDescriptor where
  name : String
  container_type : ContainerType
  value_type : TypeToken
  key_type : Option TypeInput
  spec_type_id : Option SpecId
  sub_schema_guid : Option String
  documentation : String
deriving DecidableEq, Repr

/-- Embeds `FieldDescriptor.__init__` from `field.py`. Validation order as in
the source: container kind (statically closed here, so that check cannot
fail), value type via `resolve_type` against `ALLOWED_VALUE_TYPES`, key type
(resolved against `ALLOWED_KEY_TYPES` only when the container is Map, raw
otherwise), spec type (statically typed here), and finally the sub-schema
GUID, which the source requires only when the raw `value_type` argument is
the host type `ES.Entity` (`if value_type == ES.Entity`). The falsy test
`if not self.sub_schema_guid` treats both `None` and the empty string as
missing. -/
def fieldDescriptorInit (name : String) (container_type : ContainerType)
    (value_type : TypeInput) (key_type : Option TypeInput)
    (spec_type_id : Option SpecId) (sub_schema_guid : Option String)
    (documentation : String) : Except Err FieldDescriptor :=
  match resolve_type value_type ALLOWED_VALUE_TYPES with
  | .error e => .error e
  | .ok vt =>
    let ktStep : Except Err (Option TypeInput) :=
      if container_type = ContainerType.map then
        match key_type with
        | none => .error (.valueError "Missing key type for Map field")
        | some k =>
            match resolve_type k ALLOWED_KEY_TYPES with
            | .error e => .error e
            | .ok t => .ok (some (TypeInput.tok t))
      else .ok key_type
    match ktStep with
    | .error e => .error e
    | .ok kt =>
      let ssgStep : Except Err (Option String) :=
        if value_type = TypeInput.tok TypeToken.entity then
          match sub_schema_guid with
          | none => .error (.valueError "A valid sub schema GUID must be provided")
          | some s =>
              if s = "" then
                .error (.valueError "A valid sub schema GUID must be provided")
              else .ok (some s)
        else .ok sub_schema_guid
      match ssgStep with
      | .error e => .error e
      | .ok ssg =>
          .ok { name := name, container_type := container_type,
                value_type := vt, key_type := kt, spec_type_id := spec_type_id,
                sub_schema_guid := ssg, documentation := documentation }

/-- A host `Field` handle as read back from a schema: name, container kind,
value type, key type (meaningful for Map fields only; the host exposes it
only there and `determine_field_type` only reads it in the Map branch) and
the spec id set on the field, plus the sub-schema GUID for nested-entity
fields. -/
structure FieldHandle where
  fieldName : String
  containerType : ContainerType
  valueType : TypeToken
  keyType : TypeToken
  specTypeId : Option SpecId
  subSchemaGuid : Option String
deriving DecidableEq, Repr

/-- A host `Schema` handle: GUID, name, documentation and its field list
(`ListFields`). -/
structure SchemaHandle where
  guid : String
  schemaName : String
  documentation : String
  fields : List FieldHandle
deriving DecidableEq, Repr

/-- Embeds `Schema.GetField(name)`: the host returns the field of that name,
or null (Python `None`) when the schema declares no such field. -/
def SchemaHandle.getField (s : SchemaHandle) (name : String) : Option FieldHandle :=
  s.fields.find? (fun f => f.fieldName == name)

/-- Embeds `determine_field_type(field)` from `field.py`: Simple fields map
to their plain value type, Array fields to `IList[value_type]`, Map fields to
`IDictionary[key_type, value_type]`. The `ValueError` branch for an
unrecognized container kind is unreachable here because `ContainerType` is a
closed enum, matching the source's own closed `ES.ContainerType`. -/
def determine_field_type (field : FieldHandle) : NetType :=
  match field.containerType with
  | .simple => .plain field.valueType
  | .array => .ilist field.valueType
  | .map => .idict field.keyType field.valueType

/-- A typed scalar as it travels through the Python layer: its host type
token and an abstract payload. -/
abbrev ScalarV := TypeToken × Nat

/-- Values handled by the entity layer. `pyList` models a Python
`list`/`tuple`/`set` of scalars (the three cases take the same branch in
`convert_to_generic`), `pyDict` a Python `dict`; `netList` and `netDict` are
the generic host containers `List[t]` and `Dictionary[k, v]`; `scalar` is a
plain host value. Nested entities are carried as `scalar .entity` payloads. -/
inductive Value
  | scalar (t : TypeToken) (payload : Nat)
  | pyList (elems : List ScalarV)
  | pyDict (pairs : List (ScalarV × ScalarV))
  | netList (t : TypeToken) (elems : List Nat)
  | netDict (k v : TypeToken) (pairs : List (Nat × Nat))
deriving DecidableEq, Repr

/-- The .NET runtime type of a value, used by the host for generic type
checks; Python containers have no .NET type. -/
def Value.netType : Value → Option NetType
  | .scalar t _ => some (.plain t)
  | .netList t _ => some (.ilist t)
  | .netDict k v _ => some (.idict k v)
  | _ => none

/-- Embeds `convert_to_generic(value)` from `field.py`. For a Python
`list`/`tuple`/`set` the element type is taken from `next(iter(value))` —
which raises `StopIteration` on an empty container — and the `List[T]`
conversion raises `TypeError` when some element does not have that type; a
`dict` is handled the same way through its first key and first value. Any
other value is returned unchanged. -/
def convert_to_generic (value : Value) : Except Err Value :=
  match value with
  | .pyList [] => .error .stopIteration
  | .pyList (e :: rest) =>
      let value_type := e.1
      if rest.all (fun x => x.1 == value_type) then
        .ok (.netList value_type (e.2 :: rest.map Prod.snd))
      else .error (.typeError "List conversion failed")
  | .pyDict [] => .error .stopIteration
  | .pyDict (p :: rest) =>
      let key_type := p.1.1
      let value_type := p.2.1
      if rest.all (fun q => q.1.1 == key_type && q.2.1 == value_type) then
        .ok (.netDict key_type value_type
          ((p.1.2, p.2.2) :: rest.map (fun q => (q.1.2, q.2.2))))
      else .error (.typeError "Dictionary conversion failed")
  | v => .ok v

/-- A host unit id (`ForgeTypeId` of a unit); the empty string models the
empty `ForgeTypeId()`. -/
abbrev UnitId := String

/-- Embeds `get_default_unit_type_id(field)` from `entity.py`: for
`SpecTypeId.Number` it returns `UnitTypeId.General`; the
`IsMeasurableSpec` branch consults a host unit table that is external to this
repository, and custom specs are modelled as non-measurable here, falling
through to the empty `ForgeTypeId` default exactly as the source does. -/
def get_default_unit_type_id (field : FieldHandle) : UnitId :=
  match field.specTypeId with
  | some SpecId.number => "UnitTypeId.General"
  | _ => ""

/-- A host `Entity` handle: its bound schema, the per-field stored values and
the host validity flag (`IsValid`). -/
structure EntityHandle where
  schema : SchemaHandle
  values : List (String × Value)
  valid : Bool
deriving DecidableEq, Repr

/-- The host default for an unset field: zero scalar, empty list, empty
dictionary. -/
def defaultValue (f : FieldHandle) : Value :=
  match f.containerType with
  | .simple => .scalar f.valueType 0
  | .array => .netList f.valueType []
  | .map => .netDict f.keyType f.valueType []

/-- Embeds the host generic read `entity.Get[dt](name, unit)`: the host
throws when the field is absent or when the requested generic type does not
match the field's actual container-aware type; otherwise it returns the
stored value, or the field's default when the field was never set. -/
def hostGet (e : EntityHandle) (dt : NetType) (name : String) (_unit : UnitId) :
    Except Err Value :=
  match e.schema.getField name with
  | none => .error (.hostError "field not in schema")
  | some f =>
      if determine_field_type f = dt then
        .ok ((e.values.lookup name).getD (defaultValue f))
      else .error (.hostError "Get type mismatch")

/-- Embeds the host generic write `entity.Set[dt](name, value, unit)`: the
host raises a `TypeError` (surfaced to IronPython) when the explicit generic
type or the value's runtime type disagrees with the field's container-aware
type; otherwise the value is stored under the field name. -/
def hostSet (e : EntityHandle) (dt : NetType) (name : String) (v : Value)
    (_unit : UnitId) : Except Err EntityHandle :=
  match e.schema.getField name with
  | none => .error (.hostError "field not in schema")
  | some f =>
      if determine_field_type f = dt ∧ v.netType = some dt then
        .ok { e with values := (name, v) :: e.values.filter (fun p => ¬ p.1 = name) }
      else .error (.typeError "Set type mismatch")

/-- Embeds `entity.Set(name, value, unit)` with the generic parameter
inferred from the value's runtime type, as in `transfer_field_data`'s
`to_entity.Set(...)` call. -/
def hostSetInferred (e : EntityHandle) (name : String) (v : Value)
    (unit : UnitId) : Except Err EntityHandle :=
  match v.netType with
  | some dt => hostSet e dt name v unit
  | none => .error (.typeError "Set type mismatch")

/-- Embeds the host `entity.Clear(fieldName)` overload taking a name: the
host rejects a name that is not in the entity's schema, otherwise the field
reverts to its default. -/
def hostClear (e : EntityHandle) (name : String) : Except Err EntityHandle :=
  match e.schema.getField name with
  | none => .error (.hostError "field not in schema")
  | some f =>
      .ok { e with values := (name, defaultValue f) :: e.values.filter (fun p => ¬ p.1 = name) }

/-- Embeds the wrapper method `Entity.get` from `entity.py` called with a
field name: `field = self.schema.GetField(field)` yields `None` for an
unknown name, and the source never checks for `None` — the next use of
`field` (`get_default_unit_type_id(field)` when no unit id was supplied,
`determine_field_type(field)` otherwise) then raises an `AttributeError` on
`None`. On success the host result is reshaped: Array results become Python
lists and Map results Python dicts; other values pass through. -/
def entity_get (e : EntityHandle) (field : String) (unit_type_id : Option UnitId) :
    Except Err Value :=
  match e.schema.getField field with
  | none =>
      .error (.noneAttribute (if unit_type_id = none then "GetSpecTypeId" else "ContainerType"))
  | some f =>
      let u := unit_type_id.getD (get_default_unit_type_id f)
      let data_type := determine_field_type f
      match hostGet e data_type field u with
      | .error e1 => .error e1
      | .ok value =>
          match f.containerType, value with
          | .array, .netList t elems => .ok (.pyList (elems.map (fun n => (t, n))))
          | .map, .netDict k v pairs =>
              .ok (.pyDict (pairs.map (fun q => ((k, q.1), (v, q.2)))))
          | _, v => .ok v

/-- Embeds the wrapper method `Entity.set` from `entity.py` called with a
field name: the same unchecked `GetField` lookup as `Entity.get` (an unknown
name raises an `AttributeError` on `None`), then the default unit id, then
`convert_to_generic` on the supplied value (whose exceptions propagate), then
the host generic `Set`, whose `TypeError` alone is caught and re-raised with
an enriched message. -/
def entity_set (e : EntityHandle) (field : String) (value : Value)
    (unit_type_id : Option UnitId) : Except Err EntityHandle :=
  match e.schema.getField field with
  | none =>
      .error (.noneAttribute (if unit_type_id = none then "GetSpecTypeId" else "ContainerType"))
  | some f =>
      let u := unit_type_id.getD (get_default_unit_type_id f)
      let data_type := determine_field_type f
      match convert_to_generic value with
      | .error e1 => .error e1
      | .ok v =>
          match hostSet e data_type field v u with
          | .ok e2 => .ok e2
          | .error (.typeError _) => .error (.typeError "Invalid type for field")
          | .error e1 => .error e1

/-- Embeds the wrapper method `Entity.clear` from `entity.py` called with a
field name: the name is passed through to the host `Clear` unchanged (the
wrapper only unwraps `Field` objects, not strings). -/
def entity_clear (e : EntityHandle) (field : String) : Except Err EntityHandle :=
  hostClear e field

/-- The per-field loop body sequence of `transfer_field_data` in `entity.py`,
recursing over the new schema's field list. For each new-schema field: look
up a same-named field on the old schema (skip when `None`); skip when
`determine_field_type(field)` — the new field's container-aware type —
differs from `old_field.ValueType`, the old field's bare value type (this is
the comparison exactly as written in the source); otherwise read the old
value with the new field's default unit id and write it to the new entity. -/
def transfer_go (from_entity : EntityHandle) :
    List FieldHandle → EntityHandle → Except Err EntityHandle
  | [], to_entity => .ok to_entity
  | field :: rest, to_entity =>
      match from_entity.schema.getField field.fieldName with
      | none => transfer_go from_entity rest to_entity
      | some old_field =>
          let field_data_type := determine_field_type field
          if field_data_type ≠ NetType.plain old_field.valueType then
            transfer_go from_entity rest to_entity
          else
            match hostGet from_entity field_data_type field.fieldName
                (get_default_unit_type_id field) with
            | .error e => .error e
            | .ok old_value =>
                match hostSetInferred to_entity field.fieldName old_value
                    (get_default_unit_type_id field) with
                | .error e => .error e
                | .ok to2 => transfer_go from_entity rest to2

/-- Embeds `transfer_field_data(from_entity, to_entity)` from `entity.py`:
the loop `for field in to_entity.Schema.ListFields()` over the new schema's
fields. -/
def transfer_field_data (from_entity to_entity : EntityHandle) :
    Except Err EntityHandle :=
  transfer_go from_entity to_entity.schema.fields to_entity

/-- A host `Element`: its name and the entities it carries, keyed by schema
GUID (the host stores at most one entity per schema). -/
structure Element where
  name : String
  entities : List (String × EntityHandle)
deriving DecidableEq, Repr

/-- Embeds `element.GetEntity(schema)`: the stored entity for that schema's
GUID, or an invalid entity when the element carries none (the host returns an
entity whose `IsValid()` is false rather than null). -/
def Element.getEntity (el : Element) (s : SchemaHandle) : EntityHandle :=
  match el.entities.lookup s.guid with
  | some e => e
  | none => { schema := s, values := [], valid := false }

/-- Embeds `element.SetEntity(entity)`: stores the entity under its schema's
GUID, replacing any previous entity of that schema. -/
def Element.setEntity (el : Element) (e : EntityHandle) : Element :=
  { el with entities :=
      (e.schema.guid, e) :: el.entities.filter (fun p => ¬ p.1 = e.schema.guid) }

/-- Embeds `element.DeleteEntity(schema)`: removes the entity stored under
that schema's GUID, if any. -/
def Element.deleteEntity (el : Element) (s : SchemaHandle) : Element :=
  { el with entities := el.entities.filter (fun p => ¬ p.1 = s.guid) }

/-- Whether the element currently carries an entity for the schema's GUID. -/
def Element.hasEntity (el : Element) (s : SchemaHandle) : Bool :=
  (el.entities.lookup s.guid).isSome

/-- Well-formedness of the host element store: every entity is filed under
its own schema's GUID. Host `SetEntity` only ever files an entity under its
schema, so every reachable element satisfies this. -/
def Element.wf (el : Element) : Bool :=
  el.entities.all (fun p => p.2.schema.guid == p.1)

/-- Embeds `list_similar_schemas(schema)` from `schema.py`: all schemas of
the host registry (`ES.Schema.ListSchemas()`) with the same name as the given
schema but a different GUID. -/
def list_similar_schemas (registry : List SchemaHandle) (schema : SchemaHandle) :
    List SchemaHandle :=
  registry.filter (fun s => s.schemaName == schema.schemaName && ¬ s.guid == schema.guid)

/-- The loop of `update_schema_entities` in `__init__.py` over the similar
schemas: fetch the element's entity under the old schema (skip when invalid),
run `transfer_field_data` into the new entity — a raised exception propagates
immediately, leaving the element in its current state — and only then, when
`remove_old` is set, delete the old entity from the element inside its own
transaction. The result carries the final element, the (mutated) new entity
and the propagated exception, if any. -/
def update_go : List SchemaHandle → Element → EntityHandle → Bool →
    Element × EntityHandle × Option Err
  | [], element, entity, _ => (element, entity, none)
  | schema :: rest, element, entity, remove_old =>
      let old_entity := element.getEntity schema
      if old_entity.valid then
        match transfer_field_data old_entity entity with
        | .error e => (element, entity, some e)
        | .ok entity2 =>
            let element2 :=
              if remove_old then element.deleteEntity old_entity.schema else element
            update_go rest element2 entity2 remove_old
      else update_go rest element entity remove_old

/-- Embeds `update_schema_entities(element, entity, remove_old)` from
`__init__.py`, iterating over `list_similar_schemas(entity.Schema)`. -/
def update_schema_entities (registry : List SchemaHandle) (element : Element)
    (entity : EntityHandle) (remove_old : Bool) :
    Element × EntityHandle × Option Err :=
  update_go (list_similar_schemas registry entity.schema) element entity remove_old

/-- A fresh, valid host entity of the given schema (`ES.Entity(schema)`). -/
def fresh_entity (schema : SchemaHandle) : EntityHandle :=
  { schema := schema, values := [], valid := true }

/-- Embeds `BaseSchema.__exit__` from `__init__.py`: inside a transaction,
`self.element.SetEntity(self._wrapped)` — unconditionally. The method
receives the exception information but never inspects it; this definition
keeps the ignored argument to mirror that. -/
def base_schema_exit (element : Element) (wrapped : EntityHandle)
    (_exc : Option Err) : Element :=
  element.setEntity wrapped

/-- Runs `with BaseSchema(element, update) as s: <body>` under Python's
with-statement semantics over the embedded `BaseSchema` methods:
`__init__` fetches the element's entity for the class schema, replacing an
invalid one with a fresh entity; `__enter__` runs `update_schema_entities`
when `update` is set (an exception there propagates without running
`__exit__`, per Python semantics); the body then runs on the wrapped entity,
returning its possibly-mutated entity and an optional raised exception; and
`__exit__` runs afterwards — on both the success and the error path, since
the source's `__exit__` stores unconditionally — after which a body exception
is re-raised (the source's `__exit__` returns `None`). Returns the final
element and the exception that escaped the scope, if any. -/
def run_base_schema_scope (registry : List SchemaHandle) (schema : SchemaHandle)
    (element : Element) (update : Bool)
    (body : EntityHandle → EntityHandle × Option Err) : Element × Option Err :=
  let g := element.getEntity schema
  let wrapped := if g.valid then g else fresh_entity schema
  let enterResult :=
    if update then update_schema_entities registry element wrapped true
    else (element, wrapped, none)
  match enterResult with
  | (el1, _, some e) => (el1, some e)
  | (el1, ent1, none) =>
      let bodyResult := body ent1
      (base_schema_exit el1 bodyResult.1 bodyResult.2, bodyResult.2)

/-- The access-level enum `ES.AccessLevel`. -/
inductive AccessLevel
  | public
  | vendor
  | application
deriving DecidableEq, Repr

/-- Host naming rules (`SchemaBuilder.AcceptableName`, also used for field
names) are host-external; they are modelled as nonemptiness. -/
def AcceptableName (s : String) : Bool := ¬ s = ""

/-- Host GUID well-formedness (`SchemaBuilder.GUIDIsValid`) is host-external;
modelled as nonemptiness of the GUID string. -/
def GUIDIsValid (g : String) : Bool := ¬ g = ""

/-- Host vendor-id well-formedness (`SchemaBuilder.VendorIdIsValid`);
modelled as nonemptiness. -/
def VendorIdIsValid (v : String) : Bool := ¬ v = ""

/-- The mutable state of a host `SchemaBuilder` while `initialize_schema` and
`add_field` drive it: the schema attributes set so far and the fields added
so far, in the order of the `AddSimpleField` / `AddArrayField` /
`AddMapField` calls. -/
structure SchemaBuilderState where
  guid : String
  schemaName : String
  documentation : String
  readAccess : AccessLevel
  writeAccess : AccessLevel
  vendorId : Option String
  applicationGuid : Option String
  fieldsAcc : List FieldHandle
deriving DecidableEq, Repr

/-- Whether the host reports that fields of this value type require a unit
spec (`FieldBuilder.NeedsUnits`): per the repository's own documentation,
Double, Single, XYZ and UV fields require units. -/
def needs_units (t : TypeToken) : Bool :=
  t = TypeToken.double ∨ t = TypeToken.single ∨ t = TypeToken.xyz ∨ t = TypeToken.uv

/-- Embeds `initialize_schema` from `schema_builder.py`: create the builder
after `GUIDIsValid`, set the name after `AcceptableName`, set the
documentation, set the two access levels (the `isinstance` checks cannot
fail here because `AccessLevel` is statically typed), and validate/set the
optional vendor id and application GUID. Each failed validation raises
`ValueError` before any later step runs. -/
def initialize_schema_builder (guid : String) (schema_name : String)
    (documentation : String) (read_access write_access : AccessLevel)
    (vendor_id : Option String) (app_guid : Option String) :
    Except Err SchemaBuilderState :=
  if ¬ GUIDIsValid guid then .error (.valueError "Invalid schema GUID")
  else if ¬ AcceptableName schema_name then .error (.valueError "Invalid schema name")
  else
    match vendor_id with
    | some v =>
        if ¬ VendorIdIsValid v then .error (.valueError "Invalid Vendor ID")
        else
          match app_guid with
          | some a =>
              if ¬ GUIDIsValid a then .error (.valueError "Invalid Application GUID")
              else .ok { guid := guid, schemaName := schema_name,
                         documentation := documentation, readAccess := read_access,
                         writeAccess := write_access, vendorId := some v,
                         applicationGuid := some a, fieldsAcc := [] }
          | none => .ok { guid := guid, schemaName := schema_name,
                          documentation := documentation, readAccess := read_access,
                          writeAccess := write_access, vendorId := some v,
                          applicationGuid := none, fieldsAcc := [] }
    | none =>
        match app_guid with
        | some a =>
            if ¬ GUIDIsValid a then .error (.valueError "Invalid Application GUID")
            else .ok { guid := guid, schemaName := schema_name,
                       documentation := documentation, readAccess := read_access,
                       writeAccess := write_access, vendorId := none,
                       applicationGuid := some a, fieldsAcc := [] }
        | none => .ok { guid := guid, schemaName := schema_name,
                        documentation := documentation, readAccess := read_access,
                        writeAccess := write_access, vendorId := none,
                        applicationGuid := none, fieldsAcc := [] }

/-- Embeds `add_field` from `field_builder.py`: validate the field name
(`AcceptableName`), dispatch on the container kind to the matching
`Add*Field` host call (a Map descriptor whose stored key type is not a
resolved host type cannot be passed to `AddMapField`; descriptors built by
`FieldDescriptor.__init__` always store a resolved token there), then set
the documentation, set the spec (`spec_type_id or SpecTypeId.Number`) when
the host reports the field needs units, and set the sub-schema GUID when the
host reports it is needed (nested-entity value type). -/
def add_field (schema_builder : SchemaBuilderState) (fd : FieldDescriptor) :
    Except Err SchemaBuilderState :=
  if ¬ AcceptableName fd.name then .error (.valueError "Invalid field name")
  else
    let base : Except Err FieldHandle :=
      match fd.container_type with
      | .simple => .ok { fieldName := fd.name, containerType := .simple,
                         valueType := fd.value_type, keyType := .int32,
                         specTypeId := none, subSchemaGuid := none }
      | .array => .ok { fieldName := fd.name, containerType := .array,
                        valueType := fd.value_type, keyType := .int32,
                        specTypeId := none, subSchemaGuid := none }
      | .map =>
          match fd.key_type with
          | some (TypeInput.tok k) =>
              .ok { fieldName := fd.name, containerType := .map,
                    valueType := fd.value_type, keyType := k,
                    specTypeId := none, subSchemaGuid := none }
          | _ => .error (.hostError "AddMapField: key type is not a host type")
    match base with
    | .error e => .error e
    | .ok fh0 =>
        let fh1 :=
          if needs_units fd.value_type then
            { fh0 with specTypeId := some (fd.spec_type_id.getD SpecId.number) }
          else fh0
        let fh2 :=
          if fd.value_type = TypeToken.entity then
            { fh1 with subSchemaGuid := fd.sub_schema_guid }
          else fh1
        .ok { schema_builder with fieldsAcc := schema_builder.fieldsAcc ++ [fh2] }

/-- Embeds `SchemaBuilder.Finish()`: publishes the accumulated schema as an
immutable handle. -/
def builder_finish (sb : SchemaBuilderState) : SchemaHandle :=
  { guid := sb.guid, schemaName := sb.schemaName,
    documentation := sb.documentation, fields := sb.fieldsAcc }

/-- A Python class in a `BaseSchema` single-inheritance chain: its name, the
`FieldDescriptor`-valued attributes of its own `__dict__` in declaration
order, and optionally a base class (a `leaf` inherits directly from
`BaseSchema`, which contributes no descriptors). -/
inductive PyClass
  | leaf (clsName : String) (ownFields : List FieldDescriptor)
  | derived (clsName : String) (base : PyClass) (ownFields : List FieldDescriptor)
deriving DecidableEq, Repr

/-- Embeds `cls.mro()` for a single-inheritance chain: the class itself
first, then its base, and so on (Python's method resolution order; the
trailing `BaseSchema`/`object` tail carries no field descriptors and is
omitted). -/
def PyClass.mro : PyClass → List (String × List FieldDescriptor)
  | .leaf n fs => [(n, fs)]
  | .derived n b fs => (n, fs) :: b.mro

/-- The order in which `build_schema`'s double loop
(`for base_cls in cls.mro(): for name, attr in base_cls.__dict__.items()`)
passes field descriptors to `add_field`. -/
def schema_add_order (c : PyClass) : List FieldDescriptor :=
  (c.mro.map Prod.snd).flatten

/-- The class attributes `SchemaMeta` and `build_schema` read off a
user-declared schema class: the class name (which `SchemaMeta.__new__`
installs as `schema_name`), the raw `guid` attribute (the empty string
models a missing/falsy GUID), `__doc__`, the access levels, the optional
vendor id and application GUID, and the class body with its inheritance
chain. -/
structure SchemaClassAttrs where
  clsName : String
  guid : String
  documentation : String
  read_access_level : AccessLevel
  write_access_level : AccessLevel
  vendor_id : Option String
  application_guid : Option String
  pyCls : PyClass
deriving DecidableEq, Repr

/-- Embeds `build_schema(cls)` from `schema.py`: initialize a builder from
the class attributes, add every `FieldDescriptor` found while walking
`cls.mro()` in order, and finish the builder. -/
def build_schema (cls : SchemaClassAttrs) : Except Err SchemaHandle :=
  match initialize_schema_builder cls.guid cls.clsName cls.documentation
      cls.read_access_level cls.write_access_level cls.vendor_id
      cls.application_guid with
  | .error e => .error e
  | .ok sb =>
      match (schema_add_order cls.pyCls).foldlM add_field sb with
      | .error e => .error e
      | .ok sb2 => .ok (builder_finish sb2)

/-- Embeds `ES.Schema.Lookup(guid)` over the host registry. -/
def schema_lookup (registry : List SchemaHandle) (guid : String) :
    Option SchemaHandle :=
  registry.find? (fun s => s.guid == guid)

/-- The host-facing state of one schema class after `SchemaMeta.__new__`:
the registry, the class's `_schema` slot, and the number of host schema
builds (`SchemaBuilder` driven to `Finish`) performed so far — the last is
instrumentation counting the underlying build calls. -/
structure MetaState where
  registry : List SchemaHandle
  cached : Option SchemaHandle
  buildCount : Nat
deriving DecidableEq, Repr

/-- Embeds `SchemaMeta.__new__` from `schema.py`: `_validate_guid` raises
`ValueError` on a falsy GUID, then `_schema` is initialised with
`ES.Schema.Lookup(guid)` — a registry lookup only; no host build happens at
class-creation time. -/
def schema_meta_new (registry : List SchemaHandle) (cls : SchemaClassAttrs) :
    Except Err MetaState :=
  if cls.guid = "" then .error (.valueError "Schema must have a GUID value")
  else .ok { registry := registry, cached := schema_lookup registry cls.guid,
             buildCount := 0 }

/-- Embeds the `SchemaMeta.schema` property: if `cls._schema` is set (truthy)
return it; otherwise build the schema via `build_schema`, cache it in
`_schema`, and (through the builder's `Finish`) register it with the host. -/
def schema_prop (cls : SchemaClassAttrs) (st : MetaState) :
    Except Err (SchemaHandle × MetaState) :=
  match st.cached with
  | some h => .ok (h, st)
  | none =>
      match build_schema cls with
      | .error e => .error e
      | .ok h =>
          .ok (h, { registry := h :: st.registry, cached := some h,
                    buildCount := st.buildCount + 1 })

/-! Concrete fixtures used by counterexamples and witnesses. -/

/-- A schema with a single scalar Int32 field named a. -/
def scalarIntField : FieldHandle :=
  { fieldName := "a", containerType := .simple, valueType := .int32,
    keyType := .int32, specTypeId := none, subSchemaGuid := none }

/-- An Array-of-Int32 field named a. -/
def arrayIntField : FieldHandle :=
  { fieldName := "a", containerType := .array, valueType := .int32,
    keyType := .int32, specTypeId := none, subSchemaGuid := none }

/-- Old-version schema for the migration fixtures: an Array Int32 field. -/
def c2_old_schema : SchemaHandle :=
  { guid := "g2-old", schemaName := "M", documentation := "",
    fields := [arrayIntField] }

/-- New-version schema with the identical Array Int32 field, different GUID. -/
def c2_new_schema : SchemaHandle :=
  { guid := "g2-new", schemaName := "M", documentation := "",
    fields := [arrayIntField] }

/-- Source entity holding data in the Array field. -/
def c2_from : EntityHandle :=
  { schema := c2_old_schema, values := [("a", .netList .int32 [1, 2, 3])],
    valid := true }

/-- Target entity of the new schema, untouched so far. -/
def c2_to : EntityHandle := fresh_entity c2_new_schema

/-- Old-version schema whose field a is an Array Int32, paired below with a
new schema whose same-named field is a Scalar Int32. -/
def c2b_old_schema : SchemaHandle :=
  { guid := "h2-old", schemaName := "M2", documentation := "",
    fields := [arrayIntField] }

/-- New-version schema whose field a is Scalar Int32. -/
def c2b_new_schema : SchemaHandle :=
  { guid := "h2-new", schemaName := "M2", documentation := "",
    fields := [scalarIntField] }

/-- Source entity for the Scalar-vs-Array pair. -/
def c2b_from : EntityHandle :=
  { schema := c2b_old_schema, values := [("a", .netList .int32 [1, 2])],
    valid := true }

/-- Target entity for the Scalar-vs-Array pair. -/
def c2b_to : EntityHandle := fresh_entity c2b_new_schema

/-- Old schema for the migration-gating fixtures: Scalar Int32 field. -/
def c3_old_schema : SchemaHandle :=
  { guid := "g3-old", schemaName := "S", documentation := "",
    fields := [scalarIntField] }

/-- New schema for the migration-gating fixtures, same name, new GUID. -/
def c3_new_schema : SchemaHandle :=
  { guid := "g3-new", schemaName := "S", documentation := "",
    fields := [scalarIntField] }

/-- The element's existing entity under the old schema. -/
def c3_old_entity : EntityHandle :=
  { schema := c3_old_schema, values := [("a", .scalar .int32 5)], valid := true }

/-- An element carrying only the old-schema entity. -/
def c3_element : Element :=
  { name := "El3", entities := [("g3-old", c3_old_entity)] }

/-- The fresh new-schema entity migration populates. -/
def c3_new_entity : EntityHandle := fresh_entity c3_new_schema

/-- Old schema for the failing-transfer gating fixture (Array Int32 field). -/
def c3b_old_schema : SchemaHandle :=
  { guid := "g3b-old", schemaName := "T", documentation := "",
    fields := [arrayIntField] }

/-- New schema for the failing-transfer gating fixture (Scalar Int32 field of
the same name, so the source's comparison lets the copy proceed and the host
`Get` then throws). -/
def c3b_new_schema : SchemaHandle :=
  { guid := "g3b-new", schemaName := "T", documentation := "",
    fields := [scalarIntField] }

/-- The element's existing entity under the failing-transfer old schema. -/
def c3b_old_entity : EntityHandle :=
  { schema := c3b_old_schema, values := [("a", .netList .int32 [1, 2])],
    valid := true }

/-- An element carrying only the failing-transfer old entity. -/
def c3b_element : Element :=
  { name := "El3b", entities := [("g3b-old", c3b_old_entity)] }

/-- The fresh new-schema entity for the failing-transfer fixture. -/
def c3b_entity : EntityHandle := fresh_entity c3b_new_schema

/-- A schema used by the scope fixture (no fields needed). -/
def c1_schema : SchemaHandle :=
  { guid := "g1", schemaName := "S1", documentation := "", fields := [] }

/-- An element carrying no entities at all. -/
def c1_element : Element := { name := "El1", entities := [] }

/-- A scope body that raises immediately, leaving the entity as it was. -/
def c1_body (ent : EntityHandle) : EntityHandle × Option Err :=
  (ent, some (Err.valueError "boom"))

/-- A field descriptor named a (Scalar Int32), declared on the base class. -/
def fdA : FieldDescriptor :=
  { name := "a", container_type := .simple, value_type := .int32,
    key_type := none, spec_type_id := none, sub_schema_guid := none,
    documentation := "" }

/-- A field descriptor named b (Scalar Int32), declared on the derived
class. -/
def fdB : FieldDescriptor :=
  { name := "b", container_type := .simple, value_type := .int32,
    key_type := none, spec_type_id := none, sub_schema_guid := none,
    documentation := "" }

/-- A base schema class declaring field a. -/
def c6_base : PyClass := .leaf "Base" [fdA]

/-- A derived schema class declaring field b on top of the base. -/
def c6_derived : PyClass := .derived "Derived" c6_base [fdB]

/-- The schema class attributes for the inheritance-order fixture. -/
def c6_cls : SchemaClassAttrs :=
  { clsName := "Derived", guid := "g6", documentation := "",
    read_access_level := .public, write_access_level := .public,
    vendor_id := none, application_guid := none, pyCls := c6_derived }

/-- Class attributes for the binding fixture: no fields, GUID g4. -/
def c4_cls : SchemaClassAttrs :=
  { clsName := "S4", guid := "g4", documentation := "",
    read_access_level := .public, write_access_level := .public,
    vendor_id := none, application_guid := none, pyCls := .leaf "S4" [] }

/-- The handle `build_schema` produces for `c4_cls`. -/
def c4_h : SchemaHandle :=
  { guid := "g4", schemaName := "S4", documentation := "", fields := [] }

/-- The meta state of `c4_cls` when the registry is empty: nothing cached. -/
def c4_st0 : MetaState := { registry := [], cached := none, buildCount := 0 }

/-- The meta state after the first `schema` access on `c4_cls`. -/
def c4_st1 : MetaState :=
  { registry := [c4_h], cached := some c4_h, buildCount := 1 }

/-- Class attributes declaring one local field, used to show that an existing
registry schema wins even when its field list differs. -/
def c4b_cls : SchemaClassAttrs :=
  { clsName := "S4b", guid := "g4b", documentation := "",
    read_access_level := .public, write_access_level := .public,
    vendor_id := none, application_guid := none, pyCls := .leaf "S4b" [fdA] }

/-- A pre-existing registry schema under GUID g4b whose field list is empty,
unlike the local declaration of `c4b_cls`. -/
def c4_h0 : SchemaHandle :=
  { guid := "g4b", schemaName := "S4b", documentation := "old", fields := [] }

/-- The meta state `SchemaMeta.__new__` produces for `c4b_cls` against a
registry already holding `c4_h0`. -/
def c4b_st : MetaState :=
  { registry := [c4_h0], cached := schema_lookup [c4_h0] "g4b", buildCount := 0 }

/-- A schema with one known field, for the unknown-field fixtures. -/
def c7_schema : SchemaHandle :=
  { guid := "g7", schemaName := "S7", documentation := "",
    fields := [{ fieldName := "count", containerType := .simple,
                 valueType := .int32, keyType := .int32, specTypeId := none,
                 subSchemaGuid := none }] }

/-- An entity bound to `c7_schema`. -/
def c7_entity : EntityHandle := fresh_entity c7_schema

/-- A schema with one Array field, for the empty-container fixture. -/
def c10_schema : SchemaHandle :=
  { guid := "g10", schemaName := "S10", documentation := "",
    fields := [arrayIntField] }

/-- An entity bound to `c10_schema`. -/
def c10_entity : EntityHandle := fresh_entity c10_schema

/-- Helper: a `GetEntity` result with a true `IsValid` flag can only come
from a stored entry, so the element carries an entity for that schema. -/
theorem hasEntity_of_valid (el : Element) (s : SchemaHandle)
    (h : (el.getEntity s).valid = true) : el.hasEntity s = true := by
  unfold Element.getEntity at h
  unfold Element.hasEntity
  cases hl : el.entities.lookup s.guid with
  | some e => simp [hl]
  | none => rw [hl] at h; simp at h

/-- Claim C1: the `with BaseSchema(...)` scope is claimed to write the
entity back only on the success path; in the source, `BaseSchema.__exit__`
calls `SetEntity` unconditionally, so a body that raises still persists the
entity. Evaluated at a concrete failing input: the element starts without
the entity, the body raises, the exception escapes the scope — and the
element nevertheless ends up carrying the entity. -/
theorem exit_persists_on_error_exit :
    (run_base_schema_scope [] c1_schema c1_element false c1_body).2
      = some (Err.valueError "boom")
    ∧ (run_base_schema_scope [] c1_schema c1_element false c1_body).1.hasEntity c1_schema
      = true
    ∧ c1_element.hasEntity c1_schema = false := by decide

/-- Claim C2: migration is claimed to copy a field iff names and resolved
value types match, with container-kind mismatches silently skipped, the rule
applying identically to Scalar, Array and Map fields. In the source,
`transfer_field_data` compares `determine_field_type(field)` — the new
field's container-aware type — with `old_field.ValueType`, a bare value
type. Evaluated at the failing inputs: an Array Int32 field named a,
identical on both schemas, is skipped (no copy, `c2_to` unchanged) even
though the old entity holds data; and a new Scalar Int32 field whose
same-named old field is an Array Int32 passes the comparison, so the copy is
attempted and the host `Get` throws instead of the claimed silent skip. -/
theorem transfer_type_comparison_bug :
    transfer_field_data c2_from c2_to = .ok c2_to
    ∧ c2_from.values.lookup "a" = some (.netList .int32 [1, 2, 3])
    ∧ transfer_field_data c2b_from c2b_to = .error (.hostError "Get type mismatch") := by
  decide

/-- Claim C3: during `update_schema_entities`, an old entity is deleted from
the element only after `transfer_field_data` for that old schema completed
without error; and when the transfer raises, the loop aborts with the
element unchanged, still carrying the old entity. Stated on the loop worker
`update_go` at the iteration that processes schema `s`, for any incoming
element/entity state: (1) if after the whole remaining run the element no
longer carries `s`'s entity, the transfer for `s` succeeded; (2) if the
transfer for `s` raises, the run returns immediately with the element in its
pre-iteration state, which still carries the old entity. -/
theorem migration_delete_gating :
    ∀ (rest : List SchemaHandle) (el : Element) (ent : EntityHandle) (ro : Bool)
      (s : SchemaHandle),
      (el.getEntity s).valid = true →
      ((update_go (s :: rest) el ent ro).1.hasEntity s = false →
         ∃ ent2, transfer_field_data (el.getEntity s) ent = .ok ent2)
      ∧ (∀ e, transfer_field_data (el.getEntity s) ent = .error e →
          update_go (s :: rest) el ent ro = (el, ent, some e)
          ∧ el.hasEntity s = true) := by
  intro rest el ent ro s hvalid
  have hhas : el.hasEntity s = true := hasEntity_of_valid el s hvalid
  constructor
  · intro hgone
    cases htr : transfer_field_data (el.getEntity s) ent with
    | error e =>
        exfalso
        have : (update_go (s :: rest) el ent ro).1 = el := by
          simp [update_go, hvalid, htr]
        rw [this] at hgone
        rw [hhas] at hgone
        exact absurd hgone (by decide)
    | ok ent2 => exact ⟨ent2, rfl⟩
  · intro e htr
    refine ⟨?_, hhas⟩
    simp [update_go, hvalid, htr]

/-- Witness for `migration_delete_gating`: a concrete migration that deletes
the old entity (so its transfer must have succeeded), and a concrete failing
transfer (new Scalar field over an old Array field of the same name and
value type) after which the element still carries the old entity. -/
theorem migration_delete_gating_witness :
    (∃ ent2, transfer_field_data (c3_element.getEntity c3_old_schema) c3_new_entity
        = .ok ent2)
    ∧ (update_go [c3b_old_schema] c3b_element c3b_entity true
        = (c3b_element, c3b_entity, some (.hostError "Get type mismatch"))
       ∧ c3b_element.hasEntity c3b_old_schema = true) := by
  constructor
  · exact (migration_delete_gating [] c3_element c3_new_entity true c3_old_schema
      (by decide)).1 (by decide)
  · exact (migration_delete_gating [] c3b_element c3b_entity true c3b_old_schema
      (by decide)).2 (.hostError "Get type mismatch") (by decide)

/-- Claim C4: the `SchemaMeta.schema` property is idempotent — once it has
returned a handle, every later access returns the same handle with the state
unchanged, and a whole access sequence performs at most one host build
(`buildCount` rises by at most one from the pre-access state); and when
class creation finds the GUID already in the host registry, the property
binds to that registry handle directly with zero builds, whatever the local
field declarations are. -/
theorem schema_binding_idempotent :
    (∀ (cls : SchemaClassAttrs) (st : MetaState) (h : SchemaHandle) (st2 : MetaState),
       schema_prop cls st = .ok (h, st2) →
       schema_prop cls st2 = .ok (h, st2) ∧ st2.buildCount ≤ st.buildCount + 1)
    ∧ (∀ (registry : List SchemaHandle) (cls : SchemaClassAttrs) (st : MetaState)
         (h0 : SchemaHandle),
       schema_meta_new registry cls = .ok st →
       schema_lookup registry cls.guid = some h0 →
       schema_prop cls st = .ok (h0, st) ∧ st.buildCount = 0) := by
  constructor
  · intro cls st h st2 hp
    cases hc : st.cached with
    | some h1 =>
        rw [schema_prop, hc] at hp
        injection hp with hp
        injection hp with hh hst
        subst hh; subst hst
        constructor
        · rw [schema_prop, hc]
        · exact Nat.le_succ _
    | none =>
        rw [schema_prop, hc] at hp
        cases hb : build_schema cls with
        | error e => rw [hb] at hp; exact absurd hp (by simp)
        | ok h1 =>
            rw [hb] at hp
            injection hp with hp
            injection hp with hh hst
            subst hh; subst hst
            constructor
            · rw [schema_prop]
            · exact Nat.le_refl _
  · intro registry cls st h0 hn hlk
    rw [schema_meta_new] at hn
    by_cases hg : cls.guid = ""
    · rw [if_pos hg] at hn; exact absurd hn (by simp)
    · rw [if_neg hg] at hn
      injection hn with hn
      subst hn
      constructor
      · rw [schema_prop]
        simp only [hlk]
      · rfl

/-- Witness for `schema_binding_idempotent`: the no-field class `c4_cls`
built once from an empty registry reaches the fixed state `c4_st1`, and
the class `c4b_cls`, whose local declaration has a field, binds to the
pre-existing field-less registry schema `c4_h0` with zero builds. -/
theorem schema_binding_idempotent_witness :
    (schema_prop c4_cls c4_st1 = .ok (c4_h, c4_st1)
     ∧ c4_st1.buildCount ≤ c4_st0.buildCount + 1)
    ∧ (schema_prop c4b_cls c4b_st = .ok (c4_h0, c4b_st)
     ∧ c4b_st.buildCount = 0) := by
  constructor
  · exact schema_binding_idempotent.1 c4_cls c4_st0 c4_h c4_st1 (by decide)
  · exact schema_binding_idempotent.2 [c4_h0] c4b_cls c4b_st c4_h0 (by decide) (by decide)

/-- Counterexample to claim C5: declaring a Scalar field with a `key_type`
supplied is claimed to be rejected; in the source, the constructor stores the
supplied key type unvalidated for every non-Map container and succeeds. -/
theorem key_type_on_scalar_not_rejected :
    fieldDescriptorInit "f" ContainerType.simple (TypeInput.tok TypeToken.int32)
        (some (TypeInput.tok TypeToken.string)) none none ""
      = .ok { name := "f", container_type := .simple, value_type := .int32,
              key_type := some (TypeInput.tok TypeToken.string),
              spec_type_id := none, sub_schema_guid := none,
              documentation := "" } := by decide

/-- Claim C5 as amended: a Map field without a key type fails at declaration
time, in the constructor, with the key-type-missing error; but a supplied
key type on a non-Map field is not rejected — it is stored as given, without
validation. -/
theorem key_type_rule_amended :
    ∀ (nm doc : String) (spec : Option SpecId) (g : Option String)
      (v : TypeInput) (vt : TypeToken) (k : Option TypeInput) (ct : ContainerType),
      resolve_type v ALLOWED_VALUE_TYPES = .ok vt →
      v ≠ TypeInput.tok TypeToken.entity →
      (fieldDescriptorInit nm ContainerType.map v none spec g doc
          = .error (.valueError "Missing key type for Map field"))
      ∧ (ct ≠ ContainerType.map →
          fieldDescriptorInit nm ct v k spec g doc
            = .ok { name := nm, container_type := ct, value_type := vt,
                    key_type := k, spec_type_id := spec, sub_schema_guid := g,
                    documentation := doc }) := by
  intro nm doc spec g v vt k ct hres hv
  constructor
  · rw [fieldDescriptorInit.eq_def, hres]
    simp
  · intro hct
    rw [fieldDescriptorInit.eq_def, hres]
    simp [hct, hv]

/-- Witness for `key_type_rule_amended`: a Map Int32 field with no key type
is rejected, while an Array Int32 field carrying a key type is accepted with
the key type stored as supplied. -/
theorem key_type_rule_amended_witness :
    fieldDescriptorInit "m" ContainerType.map (TypeInput.tok TypeToken.int32)
        none none none ""
      = .error (.valueError "Missing key type for Map field")
    ∧ fieldDescriptorInit "f" ContainerType.array (TypeInput.tok TypeToken.int32)
        (some (TypeInput.tok TypeToken.guid)) none none ""
      = .ok { name := "f", container_type := .array, value_type := .int32,
              key_type := some (TypeInput.tok TypeToken.guid),
              spec_type_id := none, sub_schema_guid := none,
              documentation := "" } := by
  constructor
  · exact (key_type_rule_amended "m" "" none none (TypeInput.tok TypeToken.int32)
      TypeToken.int32 none ContainerType.map (by decide) (by decide)).1
  · exact (key_type_rule_amended "f" "" none none (TypeInput.tok TypeToken.int32)
      TypeToken.int32 (some (TypeInput.tok TypeToken.guid)) ContainerType.array
      (by decide) (by decide)).2 (by decide)

/-- Counterexample to claim C6: with base class `Base` declaring field a and
derived class `Derived` declaring field b, `build_schema` adds the derived
class's field first — `cls.mro()` starts at the class itself — so the
builder receives [b, a], not the claimed base-first [a, b]. -/
theorem fields_added_derived_first :
    (build_schema c6_cls).map (fun h => h.fields.map FieldHandle.fieldName)
      = .ok ["b", "a"]
    ∧ ["b", "a"] ≠ ["a", "b"] := by decide

/-- Claim C6 as amended: fields are added to the host schema builder in
method-resolution order — the derived class's own fields first (in
declaration order), then the fields contributed by its base chain. -/
theorem fields_added_in_mro_order :
    ∀ (n : String) (b : PyClass) (fs : List FieldDescriptor),
      schema_add_order (PyClass.derived n b fs) = fs ++ schema_add_order b := by
  intro n b fs
  rw [schema_add_order, schema_add_order, PyClass.mro]
  rw [List.map_cons, List.flatten_cons]

/-- Counterexample to claim C7: on an entity whose schema declares only the
field `count`, `get`/`set` with the unknown name `missing` fail with an
`AttributeError` on the `None` returned by `GetField` (dereferenced inside
`get_default_unit_type_id`), and `clear` forwards the raw name to the host
`Clear`, which rejects it host-side — none of the three fails with a
dedicated unknown-field error, and the source defines no `UnknownFieldError`
at all. -/
theorem unknown_field_attribute_error :
    entity_get c7_entity "missing" none = .error (.noneAttribute "GetSpecTypeId")
    ∧ entity_set c7_entity "missing" (.scalar .int32 1) none
      = .error (.noneAttribute "GetSpecTypeId")
    ∧ entity_clear c7_entity "missing" = .error (.hostError "field not in schema") := by
  decide

/-- Claim C7 as amended: `get`/`set`/`clear` on a field name absent from the
bound schema always fail, but `get` and `set` fail with an attribute error
from dereferencing the unchecked `None` result of `GetField` (on
`GetSpecTypeId` when no unit id was passed, on `ContainerType` otherwise),
and `clear` fails inside the host `Clear` call; no `UnknownFieldError` type
exists in the source. -/
theorem unknown_field_behavior_amended :
    ∀ (e : EntityHandle) (nm : String) (u : Option UnitId) (v : Value),
      e.schema.getField nm = none →
      entity_get e nm u
        = .error (.noneAttribute (if u = none then "GetSpecTypeId" else "ContainerType"))
      ∧ entity_set e nm v u
        = .error (.noneAttribute (if u = none then "GetSpecTypeId" else "ContainerType"))
      ∧ entity_clear e nm = .error (.hostError "field not in schema") := by
  intro e nm u v h
  refine ⟨?_, ?_, ?_⟩
  · rw [entity_get, h]
  · rw [entity_set, h]
  · rw [entity_clear, hostClear, h]

/-- Witness for `unknown_field_behavior_amended` at the concrete entity
`c7_entity` and the unknown name `bogus`. -/
theorem unknown_field_behavior_amended_witness :
    entity_get c7_entity "bogus" none = .error (.noneAttribute "GetSpecTypeId")
    ∧ entity_set c7_entity "bogus" (.scalar .int32 2) none
      = .error (.noneAttribute "GetSpecTypeId")
    ∧ entity_clear c7_entity "bogus" = .error (.hostError "field not in schema") := by
  exact unknown_field_behavior_amended c7_entity "bogus" none (.scalar .int32 2)
    (by decide)

/-- Claim C8: key-type resolution is claimed to fail on every input outside
the allowed key-type set, which excludes `double`; but `resolve_type` tests
identity with the native `float` before consulting `allowed_types`, so
resolving Python's `float` against `ALLOWED_KEY_TYPES` returns the `Double`
token — a token not in the allowed key-type set — instead of raising. -/
theorem resolve_float_key_type_yields_double :
    resolve_type TypeInput.pyFloat ALLOWED_KEY_TYPES = .ok TypeToken.double
    ∧ TypeToken.double ∉ ALLOWED_KEY_TYPES.map Prod.snd := by decide

/-- Counterexample to claim C9: declaring a Scalar field whose value type is
given as the string name `entity`, with no sub-schema GUID, is claimed to
fail; in the source the GUID requirement tests the raw constructor argument
against the native `ES.Entity` type, so the string alias bypasses it and the
declaration succeeds with the value type resolved to the entity token and no
sub-schema GUID stored. -/
theorem entity_string_alias_bypasses_guid_requirement :
    fieldDescriptorInit "f" ContainerType.simple (TypeInput.name "entity")
        none none none ""
      = .ok { name := "f", container_type := .simple, value_type := .entity,
              key_type := none, spec_type_id := none, sub_schema_guid := none,
              documentation := "" } := by decide

/-- Claim C9 as amended: the sub-schema GUID is required — failing at
declaration time with the GUID-missing error — exactly when the value type is
passed as the native entity type; passing the string name `entity` resolves
to the same entity token but bypasses the requirement, and no non-entity raw
value type ever triggers it. Stated for non-Map containers (for Map the
missing-key check fires first). -/
theorem sub_schema_guid_rule_amended :
    ∀ (nm doc : String) (spec : Option SpecId) (ct : ContainerType),
      ct ≠ ContainerType.map →
      (fieldDescriptorInit nm ct (TypeInput.tok TypeToken.entity) none spec none doc
         = .error (.valueError "A valid sub schema GUID must be provided"))
      ∧ (∀ s, s ≠ "" →
          fieldDescriptorInit nm ct (TypeInput.tok TypeToken.entity) none spec
              (some s) doc
            = .ok { name := nm, container_type := ct, value_type := .entity,
                    key_type := none, spec_type_id := spec,
                    sub_schema_guid := some s, documentation := doc })
      ∧ (fieldDescriptorInit nm ct (TypeInput.name "entity") none spec none doc
         = .ok { name := nm, container_type := ct, value_type := .entity,
                 key_type := none, spec_type_id := spec, sub_schema_guid := none,
                 documentation := doc })
      ∧ (∀ v vt g, resolve_type v ALLOWED_VALUE_TYPES = .ok vt →
          v ≠ TypeInput.tok TypeToken.entity →
          fieldDescriptorInit nm ct v none spec g doc
            = .ok { name := nm, container_type := ct, value_type := vt,
                    key_type := none, spec_type_id := spec, sub_schema_guid := g,
                    documentation := doc }) := by
  intro nm doc spec ct hct
  have hresTok : resolve_type (TypeInput.tok TypeToken.entity) ALLOWED_VALUE_TYPES
      = .ok TypeToken.entity := by decide
  have hresName : resolve_type (TypeInput.name "entity") ALLOWED_VALUE_TYPES
      = .ok TypeToken.entity := by decide
  refine ⟨?_, ?_, ?_, ?_⟩
  · rw [fieldDescriptorInit.eq_def, hresTok]
    simp [hct]
  · intro s hs
    rw [fieldDescriptorInit.eq_def, hresTok]
    simp [hct, hs]
  · rw [fieldDescriptorInit.eq_def, hresName]
    simp [hct]
  · intro v vt g hres hv
    rw [fieldDescriptorInit.eq_def, hres]
    simp [hct, hv]

/-- Witness for `sub_schema_guid_rule_amended` at a Scalar container:
native entity type without GUID fails, with GUID succeeds, the string alias
without GUID succeeds, and an Int32 value type needs no GUID. -/
theorem sub_schema_guid_rule_amended_witness :
    fieldDescriptorInit "f" ContainerType.simple (TypeInput.tok TypeToken.entity)
        none none none ""
      = .error (.valueError "A valid sub schema GUID must be provided")
    ∧ fieldDescriptorInit "f" ContainerType.simple (TypeInput.tok TypeToken.entity)
        none none (some "sub-guid") ""
      = .ok { name := "f", container_type := .simple, value_type := .entity,
              key_type := none, spec_type_id := none,
              sub_schema_guid := some "sub-guid", documentation := "" }
    ∧ fieldDescriptorInit "f" ContainerType.simple (TypeInput.name "entity")
        none none none ""
      = .ok { name := "f", container_type := .simple, value_type := .entity,
              key_type := none, spec_type_id := none, sub_schema_guid := none,
              documentation := "" }
    ∧ fieldDescriptorInit "f" ContainerType.simple (TypeInput.tok TypeToken.int32)
        none none none ""
      = .ok { name := "f", container_type := .simple, value_type := .int32,
              key_type := none, spec_type_id := none, sub_schema_guid := none,
              documentation := "" } := by
  have h := sub_schema_guid_rule_amended "f" "" none ContainerType.simple (by decide)
  exact ⟨h.1, h.2.1 "sub-guid" (by decide), h.2.2.1,
    h.2.2.2 (TypeInput.tok TypeToken.int32) TypeToken.int32 none (by decide) (by decide)⟩

/-- Claim C10: `Entity.set` on an Array or Map field with an empty Python
container never succeeds: `convert_to_generic` reads the container's first
element via `next(iter(...))`, which raises `StopIteration` on an empty
list/tuple/set/dict, and that exception propagates out of `set` before any
host store happens. -/
theorem empty_container_set_raises :
    ∀ (e : EntityHandle) (nm : String) (f : FieldHandle) (u : Option UnitId)
      (v : Value),
      e.schema.getField nm = some f →
      (f.containerType = ContainerType.array ∨ f.containerType = ContainerType.map) →
      (v = Value.pyList [] ∨ v = Value.pyDict []) →
      convert_to_generic v = .error .stopIteration
      ∧ entity_set e nm v u = .error .stopIteration := by
  intro e nm f u v hf _hcont hv
  have hconv : convert_to_generic v = .error .stopIteration := by
    rcases hv with hv | hv <;> rw [hv] <;> rfl
  refine ⟨hconv, ?_⟩
  rw [entity_set, hf, hconv]

/-- Witness for `empty_container_set_raises`: setting the Array Int32 field
a of `c10_entity` to an empty Python list raises `StopIteration`. -/
theorem empty_container_set_raises_witness :
    convert_to_generic (Value.pyList []) = .error .stopIteration
    ∧ entity_set c10_entity "a" (Value.pyList []) none = .error .stopIteration := by
  exact empty_container_set_raises c10_entity "a" arrayIntField none
    (Value.pyList []) (by decide) (Or.inl (by decide)) (Or.inl rfl)
